import Mathlib

/-!
Verification development for the pg-users-admin CLI (PostgreSQL user/role/permission
manager). The JavaScript services are shallowly embedded: every `db.query(...)` call a
service function issues is captured as a `Stmt` value carrying the interpolated
arguments, and each service function is embedded as a pure function returning its
result object together with the ordered list of statements it issues. `Stmt.sql`
renders each statement exactly as the source template does. The catalog-reading
functions are modelled over an explicit database snapshot / oracle.
-/

/-- SQL statements issued by the services, one constructor per `db.query` template in
the source. Argument order follows the template's interpolation order. -/
inductive Stmt where
  | grantConnect (database rolename : String)
  | grantUsage (schema rolename : String)
  | grantSelectTables (schema rolename : String)
  | defaultGrantSelect (schema rolename : String)
  | grantWriteTables (schema rolename : String)
  | defaultGrantWrite (schema rolename : String)
  | grantUsageSequences (schema rolename : String)
  | defaultGrantUsageSequences (schema rolename : String)
  | revokeTables (schema rolename : String)
  | revokeSequences (schema rolename : String)
  | revokeSchema (schema rolename : String)
  | revokeDatabase (database rolename : String)
  | defaultRevokeTables (schema rolename : String)
  | defaultRevokeSequences (schema rolename : String)
  | createRoleNoLogin (rolename : String)
  | createUserWithLogin (username password : String)
  | alterRolePassword (username newPassword : String)
  | dropRole (name : String)
  | grantRoleTo (rolename username : String)
  | revokeRoleFrom (rolename username : String)
deriving DecidableEq, Repr

/-- Exact SQL text of each statement, matching the source templates character for
character (the `\x27` escapes are single quotes around interpolated passwords). -/
def Stmt.sql : Stmt → String
  | .grantConnect database rolename =>
      "GRANT CONNECT ON DATABASE " ++ database ++ " TO " ++ rolename ++ ";"
  | .grantUsage schema rolename =>
      "GRANT USAGE ON SCHEMA " ++ schema ++ " TO " ++ rolename ++ ";"
  | .grantSelectTables schema rolename =>
      "GRANT SELECT ON ALL TABLES IN SCHEMA " ++ schema ++ " TO " ++ rolename ++ ";"
  | .defaultGrantSelect schema rolename =>
      "ALTER DEFAULT PRIVILEGES IN SCHEMA " ++ schema ++ " GRANT SELECT ON TABLES TO " ++ rolename ++ ";"
  | .grantWriteTables schema rolename =>
      "GRANT INSERT, UPDATE, DELETE ON ALL TABLES IN SCHEMA " ++ schema ++ " TO " ++ rolename ++ ";"
  | .defaultGrantWrite schema rolename =>
      "ALTER DEFAULT PRIVILEGES IN SCHEMA " ++ schema ++ " GRANT SELECT, INSERT, UPDATE, DELETE ON TABLES TO " ++ rolename ++ ";"
  | .grantUsageSequences schema rolename =>
      "GRANT USAGE ON ALL SEQUENCES IN SCHEMA " ++ schema ++ " TO " ++ rolename ++ ";"
  | .defaultGrantUsageSequences schema rolename =>
      "ALTER DEFAULT PRIVILEGES IN SCHEMA " ++ schema ++ " GRANT USAGE ON SEQUENCES TO " ++ rolename ++ ";"
  | .revokeTables schema rolename =>
      "REVOKE ALL PRIVILEGES ON ALL TABLES IN SCHEMA " ++ schema ++ " FROM " ++ rolename ++ ";"
  | .revokeSequences schema rolename =>
      "REVOKE ALL PRIVILEGES ON ALL SEQUENCES IN SCHEMA " ++ schema ++ " FROM " ++ rolename ++ ";"
  | .revokeSchema schema rolename =>
      "REVOKE ALL PRIVILEGES ON SCHEMA " ++ schema ++ " FROM " ++ rolename ++ ";"
  | .revokeDatabase database rolename =>
      "REVOKE ALL PRIVILEGES ON DATABASE " ++ database ++ " FROM " ++ rolename ++ ";"
  | .defaultRevokeTables schema rolename =>
      "ALTER DEFAULT PRIVILEGES IN SCHEMA " ++ schema ++ " REVOKE ALL PRIVILEGES ON TABLES FROM " ++ rolename ++ ";"
  | .defaultRevokeSequences schema rolename =>
      "ALTER DEFAULT PRIVILEGES IN SCHEMA " ++ schema ++ " REVOKE ALL PRIVILEGES ON SEQUENCES FROM " ++ rolename ++ ";"
  | .createRoleNoLogin rolename =>
      "CREATE ROLE " ++ rolename ++ " NOLOGIN;"
  | .createUserWithLogin username password =>
      "CREATE ROLE " ++ username ++ " WITH LOGIN PASSWORD \x27" ++ password ++ "\x27;"
  | .alterRolePassword username newPassword =>
      "ALTER ROLE " ++ username ++ " WITH PASSWORD \x27" ++ newPassword ++ "\x27;"
  | .dropRole name =>
      "DROP ROLE " ++ name ++ ";"
  | .grantRoleTo rolename username =>
      "GRANT " ++ rolename ++ " TO " ++ username ++ ";"
  | .revokeRoleFrom rolename username =>
      "REVOKE " ++ rolename ++ " FROM " ++ username ++ ";"

/-- The schema an individual statement targets, if it is a schema-level statement
(database-level statements such as GRANT CONNECT / REVOKE ... ON DATABASE and the
role-lifecycle statements target no schema). -/
def Stmt.schemaTarget : Stmt → Option String
  | .grantUsage schema _ => some schema
  | .grantSelectTables schema _ => some schema
  | .defaultGrantSelect schema _ => some schema
  | .grantWriteTables schema _ => some schema
  | .defaultGrantWrite schema _ => some schema
  | .grantUsageSequences schema _ => some schema
  | .defaultGrantUsageSequences schema _ => some schema
  | .revokeTables schema _ => some schema
  | .revokeSequences schema _ => some schema
  | .revokeSchema schema _ => some schema
  | .defaultRevokeTables schema _ => some schema
  | .defaultRevokeSequences schema _ => some schema
  | _ => none

/-- Result object returned by the mutating services (`{ success, message }`). -/
structure OpResult where
  success : Bool
  message : String
deriving DecidableEq, Repr

/-- Character-level model of the JavaScript prefix test `s.startsWith(p)` (also the
meaning of the SQL patterns `LIKE 'pg\_%'` / `LIKE 'rds\_%'` with escaped underscore):
the character list of `p` is a prefix of the character list of `s`. -/
def strStartsWith (s p : String) : Bool :=
  p.toList.isPrefixOf s.toList

/-- Character-level lexicographic comparison of code points, modelling the ordering
the database applies for `ORDER BY rolname`. -/
def charListLe : List Char → List Char → Bool
  | [], _ => true
  | _ :: _, [] => false
  | a :: as, b :: bs =>
    if a.toNat < b.toNat then true
    else if b.toNat < a.toNat then false
    else charListLe as bs

/-- Lexicographic string comparison used to model `ORDER BY` on name columns. -/
def strLe (a b : String) : Bool :=
  charListLe a.toList b.toList

/-- Reserved-prefix guard used by the create/update/delete services
(`name.startsWith('pg_') || name.startsWith('rds_')`). -/
def reservedName (name : String) : Bool :=
  strStartsWith name "pg_" || strStartsWith name "rds_"

/-- Statements actually applied (sent and succeeded) when a statement list is executed
sequentially against an oracle `ok` deciding each statement's success: `await db.query`
throws on the first failure, so everything before it is applied and the rest is never
issued. -/
def appliedStmts (ok : Stmt → Bool) (l : List Stmt) : List Stmt :=
  l.takeWhile ok

namespace PermissionService

/-- Embedding of `grantReadPermissions(rolename, database, schema = 'public')`:
the success result plus the four statements issued, in order. -/
def grantReadPermissions (rolename database schema : String) : OpResult × List Stmt :=
  (⟨true, "Read permissions granted to " ++ rolename ++ " on " ++ database ++ "." ++ schema⟩,
   [Stmt.grantConnect database rolename,
    Stmt.grantUsage schema rolename,
    Stmt.grantSelectTables schema rolename,
    Stmt.defaultGrantSelect schema rolename])

/-- Embedding of `grantWritePermissions`: it first calls `grantReadPermissions`
and then issues the four write statements. -/
def grantWritePermissions (rolename database schema : String) : OpResult × List Stmt :=
  (⟨true, "Write permissions granted to " ++ rolename ++ " on " ++ database ++ "." ++ schema⟩,
   (grantReadPermissions rolename database schema).2 ++
   [Stmt.grantWriteTables schema rolename,
    Stmt.defaultGrantWrite schema rolename,
    Stmt.grantUsageSequences schema rolename,
    Stmt.defaultGrantUsageSequences schema rolename])

/-- Embedding of `grantReadPermissionsMulti(rolename, database, schemas)`: one
GRANT CONNECT, then the three per-schema read statements for each schema in order. -/
def grantReadPermissionsMulti (rolename database : String) (schemas : List String) :
    OpResult × List Stmt :=
  (⟨true, "Read permissions granted to " ++ rolename ++ " on " ++ database ++
      " schemas: " ++ String.intercalate ", " schemas⟩,
   Stmt.grantConnect database rolename ::
     schemas.flatMap (fun schema =>
       [Stmt.grantUsage schema rolename,
        Stmt.grantSelectTables schema rolename,
        Stmt.defaultGrantSelect schema rolename]))

/-- Embedding of `grantWritePermissionsMulti`: it first calls
`grantReadPermissionsMulti` on the whole schema list, then runs the write loop. -/
def grantWritePermissionsMulti (rolename database : String) (schemas : List String) :
    OpResult × List Stmt :=
  (⟨true, "Write permissions granted to " ++ rolename ++ " on " ++ database ++
      " schemas: " ++ String.intercalate ", " schemas⟩,
   (grantReadPermissionsMulti rolename database schemas).2 ++
     schemas.flatMap (fun schema =>
       [Stmt.grantWriteTables schema rolename,
        Stmt.defaultGrantWrite schema rolename,
        Stmt.grantUsageSequences schema rolename,
        Stmt.defaultGrantUsageSequences schema rolename]))

/-- Embedding of `revokeAllPermissions(rolename, database, schema = 'public')`:
six statements in source order (database revoke before the default-privilege revokes). -/
def revokeAllPermissions (rolename database schema : String) : OpResult × List Stmt :=
  (⟨true, "All permissions revoked from " ++ rolename ++ " on " ++ database ++ "." ++ schema⟩,
   [Stmt.revokeTables schema rolename,
    Stmt.revokeSequences schema rolename,
    Stmt.revokeSchema schema rolename,
    Stmt.revokeDatabase database rolename,
    Stmt.defaultRevokeTables schema rolename,
    Stmt.defaultRevokeSequences schema rolename])

/-- Embedding of `revokeAllPermissionsMulti`: five per-schema revokes for each schema
in order, then a single database revoke at the end. -/
def revokeAllPermissionsMulti (rolename database : String) (schemas : List String) :
    OpResult × List Stmt :=
  (⟨true, "All permissions revoked from " ++ rolename ++ " on " ++ database ++
      " schemas: " ++ String.intercalate ", " schemas⟩,
   schemas.flatMap (fun schema =>
     [Stmt.revokeTables schema rolename,
      Stmt.revokeSequences schema rolename,
      Stmt.revokeSchema schema rolename,
      Stmt.defaultRevokeTables schema rolename,
      Stmt.defaultRevokeSequences schema rolename]) ++
   [Stmt.revokeDatabase database rolename])

end PermissionService

namespace UserService

/-- Embedding of `createUser(username, password)`: reserved-prefix names are rejected
with a failure result before any statement is issued. -/
def createUser (username password : String) : OpResult × List Stmt :=
  if strStartsWith username "pg_" || strStartsWith username "rds_" then
    (⟨false, "Error: Cannot create user with reserved prefix (pg_ or rds_). These are reserved for system use."⟩, [])
  else
    (⟨true, "User " ++ username ++ " created successfully"⟩,
     [Stmt.createUserWithLogin username password])

/-- Embedding of `updateUserPassword(username, newPassword)`. -/
def updateUserPassword (username newPassword : String) : OpResult × List Stmt :=
  if strStartsWith username "pg_" || strStartsWith username "rds_" then
    (⟨false, "Error: Cannot modify system user " ++ username ++ ". System users are protected."⟩, [])
  else
    (⟨true, "Password for " ++ username ++ " updated successfully"⟩,
     [Stmt.alterRolePassword username newPassword])

/-- Embedding of `deleteUser(username)`. -/
def deleteUser (username : String) : OpResult × List Stmt :=
  if strStartsWith username "pg_" || strStartsWith username "rds_" then
    (⟨false, "Error: Cannot delete system user " ++ username ++ ". System users are protected."⟩, [])
  else
    (⟨true, "User " ++ username ++ " deleted successfully"⟩, [Stmt.dropRole username])

end UserService

namespace RoleService

/-- Embedding of `createRole(rolename)`. -/
def createRole (rolename : String) : OpResult × List Stmt :=
  if strStartsWith rolename "pg_" || strStartsWith rolename "rds_" then
    (⟨false, "Error: Cannot create role with reserved prefix (pg_ or rds_). These are reserved for system use."⟩, [])
  else
    (⟨true, "Role " ++ rolename ++ " created successfully"⟩,
     [Stmt.createRoleNoLogin rolename])

/-- Embedding of `deleteRole(rolename)`. -/
def deleteRole (rolename : String) : OpResult × List Stmt :=
  if strStartsWith rolename "pg_" || strStartsWith rolename "rds_" then
    (⟨false, "Error: Cannot delete system role " ++ rolename ++ ". System roles are protected."⟩, [])
  else
    (⟨true, "Role " ++ rolename ++ " deleted successfully"⟩, [Stmt.dropRole rolename])

/-- Embedding of `assignUserToRole(username, rolename)`: no reserved-prefix check
appears in the source; the GRANT is issued unconditionally. -/
def assignUserToRole (username rolename : String) : OpResult × List Stmt :=
  (⟨true, "User " ++ username ++ " assigned to role " ++ rolename ++ " successfully"⟩,
   [Stmt.grantRoleTo rolename username])

/-- Embedding of `removeUserFromRole(username, rolename)`: no reserved-prefix check
appears in the source; the REVOKE is issued unconditionally. -/
def removeUserFromRole (username rolename : String) : OpResult × List Stmt :=
  (⟨true, "User " ++ username ++ " removed from role " ++ rolename ++ " successfully"⟩,
   [Stmt.revokeRoleFrom rolename username])

end RoleService

/-- A row of the `pg_roles` catalog as used by the list queries (only the columns the
queries select). The database snapshot is a list of such rows. -/
structure PgRole where
  rolname : String
  rolsuper : Bool
  rolcreaterole : Bool
  rolcanlogin : Bool
deriving DecidableEq, Repr

/-- A row returned by `listUsers` (`SELECT rolname as username, rolsuper as
is_superuser, rolcreaterole as can_create_role, rolcanlogin as can_login`). -/
structure UserRow where
  username : String
  is_superuser : Bool
  can_create_role : Bool
  can_login : Bool
deriving DecidableEq, Repr

/-- Row ordering used to model `ORDER BY rolname` on the result rows. -/
def UserRow.nameLe (a b : UserRow) : Prop :=
  strLe a.username b.username = true

instance : DecidableRel UserRow.nameLe :=
  fun a b => inferInstanceAs (Decidable (strLe a.username b.username = true))

namespace UserService

/-- Column renaming performed by the SELECT clause of the `listUsers` query. -/
def userRow (r : PgRole) : UserRow :=
  ⟨r.rolname, r.rolsuper, r.rolcreaterole, r.rolcanlogin⟩

/-- Embedding of `listUsers(includeSystemUsers = false)` as the relational meaning of
the SQL it builds over a `pg_roles` snapshot: `WHERE rolcanlogin = true`, plus
`AND rolname NOT LIKE 'pg\_%' AND rolname NOT LIKE 'rds\_%'` unless system users are
requested, then `ORDER BY rolname`. -/
def listUsers (includeSystemUsers : Bool) (snapshot : List PgRole) : List UserRow :=
  List.insertionSort UserRow.nameLe
    ((snapshot.filter (fun r =>
        r.rolcanlogin &&
        (includeSystemUsers ||
          (!(strStartsWith r.rolname "pg_") && !(strStartsWith r.rolname "rds_"))))).map userRow)

end UserService

/-- Role-attribute row returned by the first `listPermissions` sub-query
(`SELECT rolname, rolsuper, rolinherit, rolcreaterole, rolcreatedb, rolcanlogin,
rolreplication, rolconnlimit, rolvaliduntil FROM pg_roles`). -/
structure RoleDetails where
  rolname : String
  rolsuper : Bool
  rolinherit : Bool
  rolcreaterole : Bool
  rolcreatedb : Bool
  rolcanlogin : Bool
  rolreplication : Bool
  rolconnlimit : Int
  rolvaliduntil : Option String
deriving DecidableEq, Repr

/-- Table-privilege row from `information_schema.table_privileges`. -/
structure TablePriv where
  table_catalog : String
  table_schema : String
  table_name : String
  privilege_type : String
deriving DecidableEq, Repr

/-- Column-privilege row from `information_schema.column_privileges`. -/
structure ColumnPriv where
  table_catalog : String
  table_schema : String
  table_name : String
  column_name : String
  privilege_type : String
deriving DecidableEq, Repr

/-- Role-membership row (`SELECT r.rolname AS parent_role ...`). -/
structure MemberRow where
  parent_role : String
deriving DecidableEq, Repr

/-- Schema-privilege row produced by the `has_schema_privilege` sub-query. -/
structure SchemaPriv where
  schema_name : String
  create_privilege : Option String
  usage_privilege : Option String
deriving DecidableEq, Repr

/-- Database-privilege row produced by the `has_database_privilege` sub-query. -/
structure DbPriv where
  database_name : String
  connect_privilege : Option String
  create_privilege : Option String
  temp_privilege : Option String
deriving DecidableEq, Repr

/-- Function-privilege row shape used by the renderer (`displayFunctionPermissions`);
the sub-query that would populate it is commented out in the source. -/
structure FuncPriv where
  schema_name : String
  function_name : String
  argument_types : String
  privilege : String
deriving DecidableEq, Repr

/-- Element shape for `defaultPrivileges`; the source initialises the field to `[]`
and never assigns or reads it, so no row shape is determined by the code. -/
structure DefaultPriv where
deriving DecidableEq, Repr

/-- The permissions object assembled by `listPermissions` (its initial literal,
with `roleDetails = roleInfo.rows[0] || {}` modelled as an optional row). -/
structure Permissions where
  roleDetails : Option RoleDetails
  tablePermissions : List TablePriv
  schemaPermissions : List SchemaPriv
  databasePermissions : List DbPriv
  columnPermissions : List ColumnPriv
  functionPermissions : List FuncPriv
  defaultPrivileges : List DefaultPriv
  memberOf : List MemberRow
  description : Option String
deriving DecidableEq, Repr

/-- Outcomes of the six independent sub-queries `listPermissions` issues, in issue
order; each `await db.query` either yields its rows or throws a data-access error
(modelled as `Except` with the error message). -/
structure DbOracle where
  roleInfo : Except String (List RoleDetails)
  tablePerms : Except String (List TablePriv)
  memberOf : Except String (List MemberRow)
  columnPerms : Except String (List ColumnPriv)
  schemaPerms : Except String (List SchemaPriv)
  dbPerms : Except String (List DbPriv)

namespace PermissionService

/-- Embedding of `listPermissions(rolename)`: the six sub-queries are awaited in
source order; a throw from any of them aborts the whole function (the error
propagates), otherwise the fields are assigned in order. The function-permission
sub-query is commented out in the source, so `functionPermissions`,
`defaultPrivileges` and `description` keep their initial values. -/
def listPermissions (o : DbOracle) : Except String Permissions := do
  let roleInfo ← o.roleInfo
  let permissions : Permissions :=
    { roleDetails := roleInfo.head?
      tablePermissions := []
      schemaPermissions := []
      databasePermissions := []
      columnPermissions := []
      functionPermissions := []
      defaultPrivileges := []
      memberOf := []
      description := none }
  let tablePerms ← o.tablePerms
  let permissions := { permissions with tablePermissions := tablePerms }
  let memberOf ← o.memberOf
  let permissions := { permissions with memberOf := memberOf }
  let columnPerms ← o.columnPerms
  let permissions := { permissions with columnPermissions := columnPerms }
  let schemaPerms ← o.schemaPerms
  let permissions := { permissions with schemaPermissions := schemaPerms }
  let dbPerms ← o.dbPerms
  return { permissions with databasePermissions := dbPerms }

end PermissionService

/-- Help lines printed by the `list-permissions` command registration
(`.on('--help', ...)` in `registerPermissionCommands`). -/
def listPermissionsHelpLines : List String :=
  ["\nDisplays detailed information about permissions granted to a role:",
   "  - Basic role attributes",
   "  - Table permissions (SELECT, INSERT, UPDATE, DELETE, etc.)",
   "  - Column-level permissions",
   "  - Schema permissions (USAGE, CREATE)",
   "  - Database permissions (CONNECT, CREATE, TEMP)",
   "  - Function permissions (for system roles)",
   "  - Role memberships",
   "  - Special notes for system roles"]

/-- Insert-or-update on an association list keyed by string: the JavaScript
`if (!obj[k]) obj[k] = init; obj[k] = f(obj[k])` idiom over plain-object keys
(insertion order preserved, first occurrence updated). -/
def assocUpsert (k : String) (f : Option β → β) (acc : List (String × β)) :
    List (String × β) :=
  match acc.find? (fun kv => kv.1 == k) with
  | some _ => acc.map (fun kv => if kv.1 == k then (kv.1, f (some kv.2)) else kv)
  | none => acc ++ [(k, f none)]

/-- Lookup in an association list keyed by string (JavaScript `obj[k]`). -/
def alook (k : String) (acc : List (String × β)) : Option β :=
  (acc.find? (fun kv => kv.1 == k)).map (fun kv => kv.2)

namespace DisplayUtils

/-- The `schema.table` grouping key (`` `${p.table_schema}.${p.table_name}` ``). -/
def tableKey (p : TablePriv) : String :=
  p.table_schema ++ "." ++ p.table_name

/-- The `schema.table` grouping key for a column-privilege row. -/
def colTableKey (p : ColumnPriv) : String :=
  p.table_schema ++ "." ++ p.table_name

/-- The `schema.table.column` distinctness key used by the statistics. -/
def columnKey (p : ColumnPriv) : String :=
  p.table_schema ++ "." ++ p.table_name ++ "." ++ p.column_name

/-- `hasReadPermissions` computed by `displayQuickSummary`:
some table grant has privilege SELECT. -/
def hasReadPermissions (tps : List TablePriv) : Bool :=
  tps.any (fun p => p.privilege_type == "SELECT")

/-- `hasWritePermissions` computed by `displayQuickSummary`:
some table grant has privilege INSERT, UPDATE or DELETE. -/
def hasWritePermissions (tps : List TablePriv) : Bool :=
  tps.any (fun p => ["INSERT", "UPDATE", "DELETE"].contains p.privilege_type)

/-- `hasAdminPermissions` computed by `displayQuickSummary`: superuser, create-db or
create-role on the role attributes (an absent row — `rows[0] || {}` — yields false). -/
def hasAdminPermissions (rd : Option RoleDetails) : Bool :=
  match rd with
  | some r => r.rolsuper || r.rolcreatedb || r.rolcreaterole
  | none => false

/-- `totalTables` statistic: `new Set(tablePermissions.map(p =>
schema.table)).size`, the number of distinct `schema.table` keys. -/
def totalTables (tps : List TablePriv) : Nat :=
  ((tps.map tableKey).dedup).length

/-- `totalColumns` statistic: number of distinct `schema.table.column` keys. -/
def totalColumns (cps : List ColumnPriv) : Nat :=
  ((cps.map columnKey).dedup).length

/-- Grouping step of `displayTablePermissions`: builds `tablePermsByTable`, pushing
each row's `privilege_type` onto its `schema.table` key (no deduplication). -/
def groupTablePerms (tps : List TablePriv) : List (String × List String) :=
  tps.foldl
    (fun acc p =>
      assocUpsert (tableKey p) (fun o => o.getD [] ++ [p.privilege_type]) acc)
    []

/-- Grouping step of `displayColumnPermissions`: builds `permsByTable`, a map from
`schema.table` key to (map from column name to pushed privilege types). -/
def groupColumnPerms (cps : List ColumnPriv) : List (String × List (String × List String)) :=
  cps.foldl
    (fun acc p =>
      assocUpsert (colTableKey p)
        (fun o =>
          assocUpsert p.column_name (fun o2 => o2.getD [] ++ [p.privilege_type])
            (o.getD []))
        acc)
    []

end DisplayUtils

namespace PasswordUtils

/-- Character set `'abcdefghijklmnopqrstuvwxyz'`. -/
def lowercaseChars : List Char := "abcdefghijklmnopqrstuvwxyz".toList

/-- Character set `'ABCDEFGHIJKLMNOPQRSTUVWXYZ'`. -/
def uppercaseChars : List Char := "ABCDEFGHIJKLMNOPQRSTUVWXYZ".toList

/-- Character set `'0123456789'`. -/
def numberChars : List Char := "0123456789".toList

/-- Character set `'!@#$%^&*()_+-=[]{}|;:,.<>?'` (braces escaped). -/
def specialChars : List Char := "!@#$%^&*()_+-=[]\x7b\x7d|;:,.<>?".toList

/-- `chars.charAt(Math.floor(Math.random() * chars.length))` with the random draw
modelled as an arbitrary natural reduced modulo the set size. -/
def pick (l : List Char) (r : Nat) : Char :=
  l.getD (r % l.length) 'a'

/-- Swap of `[arr[i], arr[j]] = [arr[j], arr[i]]` on a list; out-of-range indices
leave the list unchanged (they never occur in the shuffle loop). -/
def listSwap (l : List Char) (i j : Nat) : List Char :=
  match l[i]?, l[j]? with
  | some a, some b => (l.set i b).set j a
  | _, _ => l

/-- The Fisher-Yates loop `for (i = n-1; i > 0; i--) { j = floor(random*(i+1));
swap(i, j) }`; `k` counts the random draws consumed so far. -/
def fyLoop (rnd : Nat → Nat) : Nat → Nat → List Char → List Char
  | _, 0, arr => arr
  | k, i + 1, arr => fyLoop rnd (k + 1) i (listSwap arr (i + 1) (rnd k % (i + 2)))

/-- The whole shuffle step of `generateSecurePassword`. -/
def fisherYates (rnd : Nat → Nat) (l : List Char) : List Char :=
  fyLoop rnd 0 (l.length - 1) l

/-- Embedding of `generateSecurePassword(length, includeSpecial, includeNumbers,
includeUppercase)`; the stream `rnd` supplies the successive `Math.random()` draws
(consumed in source order: mandatory picks, fill loop, shuffle loop), and the string
is modelled as its character list. -/
def generateSecurePassword (len : Nat)
    (includeSpecial includeNumbers includeUppercase : Bool) (rnd : Nat → Nat) :
    List Char :=
  let chars := lowercaseChars ++
    (if includeUppercase then uppercaseChars else []) ++
    (if includeNumbers then numberChars else []) ++
    (if includeSpecial then specialChars else [])
  let mand1 := if includeUppercase then [pick uppercaseChars (rnd 0)] else []
  let used1 := if includeUppercase then 1 else 0
  let mand2 := mand1 ++ (if includeNumbers then [pick numberChars (rnd used1)] else [])
  let used2 := used1 + (if includeNumbers then 1 else 0)
  let mand3 := mand2 ++ (if includeSpecial then [pick specialChars (rnd used2)] else [])
  let used3 := used2 + (if includeSpecial then 1 else 0)
  let remaining := len - mand3.length
  let filled := mand3 ++ (List.range remaining).map (fun i => pick chars (rnd (used3 + i)))
  fisherYates (fun i => rnd (used3 + remaining + i)) filled

end PasswordUtils

/-- The statements in a list that target a given schema (`Stmt.schemaTarget`);
database-level and role-lifecycle statements never occur in the result. -/
def schemaStmts (s : String) (l : List Stmt) : List Stmt :=
  l.filter (fun st => st.schemaTarget == some s)

theorem reservedName_eq (name : String) :
    reservedName name = (strStartsWith name "pg_" || strStartsWith name "rds_") := rfl

/-- C4: for every username or role name starting with `pg_` or `rds_`, the operations
createUser, updateUserPassword, deleteUser, createRole and deleteRole return a failure
result decided before any SQL statement is sent: the result has `success = false` and
the issued statement list is empty, so the database state is unchanged. -/
theorem lifecycle_ops_reject_reserved (name pw : String)
    (h : reservedName name = true) :
    (UserService.createUser name pw).1.success = false ∧
      (UserService.createUser name pw).2 = [] ∧
    (UserService.updateUserPassword name pw).1.success = false ∧
      (UserService.updateUserPassword name pw).2 = [] ∧
    (UserService.deleteUser name).1.success = false ∧
      (UserService.deleteUser name).2 = [] ∧
    (RoleService.createRole name).1.success = false ∧
      (RoleService.createRole name).2 = [] ∧
    (RoleService.deleteRole name).1.success = false ∧
      (RoleService.deleteRole name).2 = [] := by
  rw [reservedName_eq] at h
  simp [UserService.createUser, UserService.updateUserPassword, UserService.deleteUser,
        RoleService.createRole, RoleService.deleteRole, h]

theorem lifecycle_ops_reject_reserved_witness :
    reservedName "pg_admin" = true ∧
      ((UserService.createUser "pg_admin" "x").1.success = false ∧
        (UserService.createUser "pg_admin" "x").2 = [] ∧
      (UserService.updateUserPassword "pg_admin" "x").1.success = false ∧
        (UserService.updateUserPassword "pg_admin" "x").2 = [] ∧
      (UserService.deleteUser "pg_admin").1.success = false ∧
        (UserService.deleteUser "pg_admin").2 = [] ∧
      (RoleService.createRole "pg_admin").1.success = false ∧
        (RoleService.createRole "pg_admin").2 = [] ∧
      (RoleService.deleteRole "pg_admin").1.success = false ∧
        (RoleService.deleteRole "pg_admin").2 = []) :=
  ⟨by decide, lifecycle_ops_reject_reserved "pg_admin" "x" (by decide)⟩

/-- C1 counterexample: `grantReadPermissions` with the reserved-prefix target role
`pg_admin` does not return a failure result with zero statements — it returns a
success result and issues four statements, refuting the claim that every mutating
operation rejects reserved-prefix targets before issuing any statement. -/
theorem reserved_guard_not_universal :
    (PermissionService.grantReadPermissions "pg_admin" "mydb" "public").1.success = true ∧
    (PermissionService.grantReadPermissions "pg_admin" "mydb" "public").2 ≠ [] := by
  constructor
  · rfl
  · decide

/-- C1 amended: only the five role/user lifecycle operations (createUser,
updateUserPassword, deleteUser, createRole, deleteRole) reject reserved-prefix targets
with a failure result and zero statements; assignUserToRole, removeUserFromRole and
the grant/revoke permission operations (single- and multi-schema) perform no
reserved-prefix check and issue their statements with a success result even when the
target role name is reserved. -/
theorem reserved_guard_exact_coverage (name pw user d s : String) (ss : List String)
    (h : reservedName name = true) :
    ((UserService.createUser name pw).1.success = false ∧
        (UserService.createUser name pw).2 = [] ∧
      (UserService.updateUserPassword name pw).1.success = false ∧
        (UserService.updateUserPassword name pw).2 = [] ∧
      (UserService.deleteUser name).1.success = false ∧
        (UserService.deleteUser name).2 = [] ∧
      (RoleService.createRole name).1.success = false ∧
        (RoleService.createRole name).2 = [] ∧
      (RoleService.deleteRole name).1.success = false ∧
        (RoleService.deleteRole name).2 = []) ∧
    ((RoleService.assignUserToRole user name).1.success = true ∧
        (RoleService.assignUserToRole user name).2 ≠ [] ∧
      (RoleService.removeUserFromRole user name).1.success = true ∧
        (RoleService.removeUserFromRole user name).2 ≠ [] ∧
      (PermissionService.grantReadPermissions name d s).1.success = true ∧
        (PermissionService.grantReadPermissions name d s).2 ≠ [] ∧
      (PermissionService.grantWritePermissions name d s).1.success = true ∧
        (PermissionService.grantWritePermissions name d s).2 ≠ [] ∧
      (PermissionService.revokeAllPermissions name d s).1.success = true ∧
        (PermissionService.revokeAllPermissions name d s).2 ≠ [] ∧
      (PermissionService.grantReadPermissionsMulti name d ss).1.success = true ∧
        (PermissionService.grantReadPermissionsMulti name d ss).2 ≠ [] ∧
      (PermissionService.grantWritePermissionsMulti name d ss).1.success = true ∧
        (PermissionService.grantWritePermissionsMulti name d ss).2 ≠ [] ∧
      (PermissionService.revokeAllPermissionsMulti name d ss).1.success = true ∧
        (PermissionService.revokeAllPermissionsMulti name d ss).2 ≠ []) := by
  rw [reservedName_eq] at h
  constructor
  · simp [UserService.createUser, UserService.updateUserPassword, UserService.deleteUser,
          RoleService.createRole, RoleService.deleteRole, h]
  · simp [RoleService.assignUserToRole, RoleService.removeUserFromRole,
          PermissionService.grantReadPermissions, PermissionService.grantWritePermissions,
          PermissionService.revokeAllPermissions, PermissionService.grantReadPermissionsMulti,
          PermissionService.grantWritePermissionsMulti,
          PermissionService.revokeAllPermissionsMulti]

theorem reserved_guard_exact_coverage_witness :
    reservedName "rds_iam" = true ∧
      ((RoleService.assignUserToRole "alice" "rds_iam").1.success = true ∧
        (RoleService.assignUserToRole "alice" "rds_iam").2 ≠ []) :=
  ⟨by decide,
   ((reserved_guard_exact_coverage "rds_iam" "pw" "alice" "mydb" "public" ["public"]
      (by decide)).2.1),
   ((reserved_guard_exact_coverage "rds_iam" "pw" "alice" "mydb" "public" ["public"]
      (by decide)).2.2.1)⟩

/-- C3: the statement sequence issued by `grantWritePermissions(r, d, s)` contains the
sequence issued by `grantReadPermissions(r, d, s)` as its proper prefix: the first
four statements coincide with the read grant, and the write grant issues strictly
more statements in the same relative order. -/
theorem grantWrite_extends_grantRead (r d s : String) :
    (PermissionService.grantWritePermissions r d s).2.take
        (PermissionService.grantReadPermissions r d s).2.length =
      (PermissionService.grantReadPermissions r d s).2 ∧
    (PermissionService.grantReadPermissions r d s).2.length <
      (PermissionService.grantWritePermissions r d s).2.length := by
  constructor
  · rfl
  · simp [PermissionService.grantWritePermissions, PermissionService.grantReadPermissions]

theorem takeWhile_append_of_all {α : Type} {p : α → Bool} :
    ∀ {l1 l2 : List α}, (∀ a ∈ l1, p a = true) →
      (l1 ++ l2).takeWhile p = l1 ++ l2.takeWhile p := by
  intro l1
  induction l1 with
  | nil => intro l2 _; simp
  | cons a l ih =>
    intro l2 h
    simp only [List.cons_append, List.takeWhile_cons, h a (by simp)]
    rw [ih (fun b hb => h b (by simp [hb]))]
    simp

/-- C2: for every role, database and schemas s1, s2, the multi-schema operations
issue, for each schema, exactly the same statement set as two sequential single-schema
calls on s1 then s2 (stated as a permutation of the per-schema statement lists for
grantRead/grantWrite/revokeAll), and GRANT CONNECT ON DATABASE is issued exactly once
by the multi-schema read and write operations. -/
theorem multi_schema_matches_sequential_singles (r d s1 s2 s : String) :
    List.Perm
      (schemaStmts s (PermissionService.grantReadPermissionsMulti r d [s1, s2]).2)
      (schemaStmts s ((PermissionService.grantReadPermissions r d s1).2 ++
        (PermissionService.grantReadPermissions r d s2).2)) ∧
    List.Perm
      (schemaStmts s (PermissionService.grantWritePermissionsMulti r d [s1, s2]).2)
      (schemaStmts s ((PermissionService.grantWritePermissions r d s1).2 ++
        (PermissionService.grantWritePermissions r d s2).2)) ∧
    List.Perm
      (schemaStmts s (PermissionService.revokeAllPermissionsMulti r d [s1, s2]).2)
      (schemaStmts s ((PermissionService.revokeAllPermissions r d s1).2 ++
        (PermissionService.revokeAllPermissions r d s2).2)) ∧
    (PermissionService.grantReadPermissionsMulti r d [s1, s2]).2.count
      (Stmt.grantConnect d r) = 1 ∧
    (PermissionService.grantWritePermissionsMulti r d [s1, s2]).2.count
      (Stmt.grantConnect d r) = 1 := by
  refine ⟨?_, ?_, ?_, ?_, ?_⟩
  · by_cases h1 : s1 = s <;> by_cases h2 : s2 = s <;>
      simp [schemaStmts, PermissionService.grantReadPermissionsMulti,
        PermissionService.grantReadPermissions, Stmt.schemaTarget, h1, h2]
  · by_cases h1 : s1 = s <;> by_cases h2 : s2 = s <;>
      simp [schemaStmts, PermissionService.grantWritePermissionsMulti,
        PermissionService.grantWritePermissions, PermissionService.grantReadPermissionsMulti,
        PermissionService.grantReadPermissions, Stmt.schemaTarget, h1, h2]
    rw [List.perm_iff_count]
    intro x
    simp [List.count_cons]
    omega
  · by_cases h1 : s1 = s <;> by_cases h2 : s2 = s <;>
      simp [schemaStmts, PermissionService.revokeAllPermissionsMulti,
        PermissionService.revokeAllPermissions, Stmt.schemaTarget, h1, h2]
  · simp [PermissionService.grantReadPermissionsMulti, List.count_cons]
  · simp [PermissionService.grantWritePermissionsMulti,
      PermissionService.grantReadPermissionsMulti, List.count_cons]

/-- C9: in `grantWritePermissionsMulti`, the full read phase (one GRANT CONNECT, then
the per-schema read statements for every schema in list order) is issued before any
write-phase statement for any schema; consequently, when every read-phase statement
succeeds and the first write-phase statement (GRANT INSERT, UPDATE, DELETE for the
first schema) fails, the applied statements are exactly the full multi-schema read
grant: read grants were already applied to every schema in the list. -/
theorem writeMulti_read_phase_before_write_phase (r d s1 : String) (rest : List String)
    (ok : Stmt → Bool)
    (hread : ∀ st ∈ (PermissionService.grantReadPermissionsMulti r d (s1 :: rest)).2,
      ok st = true)
    (hfail : ok (Stmt.grantWriteTables s1 r) = false) :
    (PermissionService.grantWritePermissionsMulti r d (s1 :: rest)).2 =
      (PermissionService.grantReadPermissionsMulti r d (s1 :: rest)).2 ++
        (s1 :: rest).flatMap (fun schema =>
          [Stmt.grantWriteTables schema r, Stmt.defaultGrantWrite schema r,
           Stmt.grantUsageSequences schema r, Stmt.defaultGrantUsageSequences schema r]) ∧
    appliedStmts ok (PermissionService.grantWritePermissionsMulti r d (s1 :: rest)).2 =
      (PermissionService.grantReadPermissionsMulti r d (s1 :: rest)).2 := by
  constructor
  · rfl
  · show ((PermissionService.grantReadPermissionsMulti r d (s1 :: rest)).2 ++
      (s1 :: rest).flatMap _).takeWhile ok = _
    rw [takeWhile_append_of_all hread]
    simp [List.takeWhile_cons, hfail]

theorem writeMulti_read_phase_before_write_phase_witness :
    appliedStmts
        (fun st => match st with
          | Stmt.grantWriteTables _ _ => false
          | _ => true)
        (PermissionService.grantWritePermissionsMulti "app" "db" ["public", "audit"]).2 =
      (PermissionService.grantReadPermissionsMulti "app" "db" ["public", "audit"]).2 :=
  (writeMulti_read_phase_before_write_phase "app" "db" "public" ["audit"]
    (fun st => match st with
      | Stmt.grantWriteTables _ _ => false
      | _ => true)
    (by decide) (by decide)).2

/-- C5: if any of the six independent sub-queries issued by `listPermissions` (role
attributes, table privileges, role memberships, column privileges, schema privileges,
database privileges — checked in issue order) fails, then `listPermissions` returns no
partial report: it propagates the failing sub-query's error to the caller. -/
theorem listPermissions_aborts_on_subquery_failure (o : DbOracle) :
    (∀ e, o.roleInfo = .error e →
      PermissionService.listPermissions o = .error e) ∧
    (∀ ri e, o.roleInfo = .ok ri → o.tablePerms = .error e →
      PermissionService.listPermissions o = .error e) ∧
    (∀ ri tp e, o.roleInfo = .ok ri → o.tablePerms = .ok tp → o.memberOf = .error e →
      PermissionService.listPermissions o = .error e) ∧
    (∀ ri tp mo e, o.roleInfo = .ok ri → o.tablePerms = .ok tp → o.memberOf = .ok mo →
      o.columnPerms = .error e →
      PermissionService.listPermissions o = .error e) ∧
    (∀ ri tp mo cp e, o.roleInfo = .ok ri → o.tablePerms = .ok tp → o.memberOf = .ok mo →
      o.columnPerms = .ok cp → o.schemaPerms = .error e →
      PermissionService.listPermissions o = .error e) ∧
    (∀ ri tp mo cp sp e, o.roleInfo = .ok ri → o.tablePerms = .ok tp →
      o.memberOf = .ok mo → o.columnPerms = .ok cp → o.schemaPerms = .ok sp →
      o.dbPerms = .error e →
      PermissionService.listPermissions o = .error e) := by
  refine ⟨?_, ?_, ?_, ?_, ?_, ?_⟩
  · intro e h
    simp [PermissionService.listPermissions, h, Except.instMonad, Except.bind]
  · intro ri e h1 h2
    simp [PermissionService.listPermissions, h1, h2, Except.instMonad, Except.bind]
  · intro ri tp e h1 h2 h3
    simp [PermissionService.listPermissions, h1, h2, h3, Except.instMonad, Except.bind]
  · intro ri tp mo e h1 h2 h3 h4
    simp [PermissionService.listPermissions, h1, h2, h3, h4, Except.instMonad, Except.bind]
  · intro ri tp mo cp e h1 h2 h3 h4 h5
    simp [PermissionService.listPermissions, h1, h2, h3, h4, h5,
      Except.instMonad, Except.bind]
  · intro ri tp mo cp sp e h1 h2 h3 h4 h5 h6
    simp [PermissionService.listPermissions, h1, h2, h3, h4, h5, h6,
      Except.instMonad, Except.bind]

theorem listPermissions_aborts_on_subquery_failure_witness :
    PermissionService.listPermissions
        { roleInfo := .ok []
          tablePerms := .error "connection reset"
          memberOf := .ok []
          columnPerms := .ok []
          schemaPerms := .ok []
          dbPerms := .ok [] } = .error "connection reset" :=
  (listPermissions_aborts_on_subquery_failure
    { roleInfo := .ok []
      tablePerms := .error "connection reset"
      memberOf := .ok []
      columnPerms := .ok []
      schemaPerms := .ok []
      dbPerms := .ok [] }).2.1 [] "connection reset" rfl rfl

/-- C10: every report successfully returned by `listPermissions` has
`functionPermissions = []`, `defaultPrivileges = []` and `description = null` (the
function-privilege sub-query is commented out and nothing assigns these fields), even
though the `list-permissions` command help text promises function permissions in the
output. -/
theorem listPermissions_function_fields_never_populated (o : DbOracle) (p : Permissions)
    (h : PermissionService.listPermissions o = .ok p) :
    p.functionPermissions = [] ∧ p.defaultPrivileges = [] ∧ p.description = none ∧
      "  - Function permissions (for system roles)" ∈ listPermissionsHelpLines := by
  rw [PermissionService.listPermissions] at h
  rcases hri : o.roleInfo with e | ri <;> rw [hri] at h
  · simp [Except.instMonad, Except.bind] at h
  rcases htp : o.tablePerms with e | tp <;> rw [htp] at h
  · simp [Except.instMonad, Except.bind] at h
  rcases hmo : o.memberOf with e | mo <;> rw [hmo] at h
  · simp [Except.instMonad, Except.bind] at h
  rcases hcp : o.columnPerms with e | cp <;> rw [hcp] at h
  · simp [Except.instMonad, Except.bind] at h
  rcases hsp : o.schemaPerms with e | sp <;> rw [hsp] at h
  · simp [Except.instMonad, Except.bind] at h
  rcases hdp : o.dbPerms with e | dp <;> rw [hdp] at h
  · simp [Except.instMonad, Except.bind] at h
  simp only [Except.instMonad, Except.bind, pure, Except.pure, Except.ok.injEq] at h
  rw [listPermissionsHelpLines]
  subst h
  simp

theorem listPermissions_function_fields_never_populated_witness :
    (⟨none, [], [], [], [], [], [], [], none⟩ : Permissions).functionPermissions = [] ∧
    (⟨none, [], [], [], [], [], [], [], none⟩ : Permissions).defaultPrivileges = [] ∧
    (⟨none, [], [], [], [], [], [], [], none⟩ : Permissions).description = none ∧
      "  - Function permissions (for system roles)" ∈ listPermissionsHelpLines :=
  listPermissions_function_fields_never_populated
    { roleInfo := .ok []
      tablePerms := .ok []
      memberOf := .ok []
      columnPerms := .ok []
      schemaPerms := .ok []
      dbPerms := .ok [] }
    ⟨none, [], [], [], [], [], [], [], none⟩ rfl

theorem charListLe_total : ∀ as bs : List Char,
    charListLe as bs = true ∨ charListLe bs as = true := by
  intro as
  induction as with
  | nil => intro bs; left; rfl
  | cons a as ih =>
    intro bs
    cases bs with
    | nil => right; rfl
    | cons b bs =>
      simp only [charListLe]
      rcases Nat.lt_trichotomy a.toNat b.toNat with h | h | h
      · left; simp [h]
      · have hab : ¬ a.toNat < b.toNat := by omega
        have hba : ¬ b.toNat < a.toNat := by omega
        rcases ih bs with h2 | h2
        · left; simp [hab, hba, h2]
        · right; simp [hab, hba, h2]
      · right; simp [h]

theorem charListLe_trans : ∀ as bs cs : List Char,
    charListLe as bs = true → charListLe bs cs = true → charListLe as cs = true := by
  intro as
  induction as with
  | nil => intro bs cs _ _; rfl
  | cons a as ih =>
    intro bs cs h1 h2
    cases bs with
    | nil => simp [charListLe] at h1
    | cons b bs =>
      cases cs with
      | nil => simp [charListLe] at h2
      | cons c cs =>
        simp only [charListLe] at h1 h2 ⊢
        by_cases hab : a.toNat < b.toNat
        · by_cases hbc : b.toNat < c.toNat
          · have hac : a.toNat < c.toNat := by omega
            simp [hac]
          · by_cases hcb : c.toNat < b.toNat
            · simp [hbc, hcb] at h2
            · have hac : a.toNat < c.toNat := by omega
              simp [hac]
        · by_cases hba : b.toNat < a.toNat
          · simp [hab, hba] at h1
          · simp only [if_neg hab, if_neg hba] at h1
            by_cases hbc : b.toNat < c.toNat
            · have hac : a.toNat < c.toNat := by omega
              simp [hac]
            · by_cases hcb : c.toNat < b.toNat
              · simp [hbc, hcb] at h2
              · simp only [if_neg hbc, if_neg hcb] at h2
                have hac : ¬ a.toNat < c.toNat := by omega
                have hca : ¬ c.toNat < a.toNat := by omega
                simp [hac, hca, ih bs cs h1 h2]

theorem nameLe_total : ∀ a b : UserRow, UserRow.nameLe a b ∨ UserRow.nameLe b a :=
  fun a b => charListLe_total a.username.toList b.username.toList

theorem nameLe_trans : ∀ a b c : UserRow,
    UserRow.nameLe a b → UserRow.nameLe b c → UserRow.nameLe a c :=
  fun a b c h1 h2 =>
    charListLe_trans a.username.toList b.username.toList c.username.toList h1 h2

/-- C8: for every database snapshot, `listUsers(false)` returns only rows with
`can_login = true` whose names do not start with `pg_` or `rds_`; the result of
`listUsers` is ordered by name; and `listUsers(true)` drops the prefix exclusion, so
it may include reserved-prefix roles (witnessed by a snapshot holding a reserved
login role). -/
theorem listUsers_excludes_reserved_and_sorts :
    (∀ snapshot : List PgRole, ∀ u ∈ UserService.listUsers false snapshot,
      u.can_login = true ∧ reservedName u.username = false) ∧
    (∀ (includeSystemUsers : Bool) (snapshot : List PgRole),
      List.Sorted UserRow.nameLe (UserService.listUsers includeSystemUsers snapshot)) ∧
    (∃ snapshot : List PgRole, ∃ u ∈ UserService.listUsers true snapshot,
      reservedName u.username = true) := by
  refine ⟨?_, ?_, ?_⟩
  · intro snapshot u hu
    rw [UserService.listUsers,
      (List.perm_insertionSort UserRow.nameLe _).mem_iff] at hu
    rcases List.mem_map.mp hu with ⟨r0, hr0, rfl⟩
    rcases List.mem_filter.mp hr0 with ⟨_, hcond⟩
    simp only [Bool.false_or, Bool.and_eq_true, Bool.not_eq_true',
      Bool.or_eq_true] at hcond
    refine ⟨hcond.1, ?_⟩
    simp [UserService.userRow, reservedName, hcond.2.1, hcond.2.2]
  · intro includeSystemUsers snapshot
    haveI : IsTotal UserRow UserRow.nameLe := ⟨nameLe_total⟩
    haveI : IsTrans UserRow UserRow.nameLe := ⟨nameLe_trans⟩
    exact List.sorted_insertionSort UserRow.nameLe _
  · refine ⟨[⟨"pg_signal_backend", false, false, true⟩],
      ⟨"pg_signal_backend", false, false, true⟩, ?_, by decide⟩
    rw [UserService.listUsers,
      (List.perm_insertionSort UserRow.nameLe _).mem_iff]
    decide

theorem listUsers_excludes_reserved_and_sorts_witness :
    (⟨"alice", false, false, true⟩ : UserRow).can_login = true ∧
      reservedName (⟨"alice", false, false, true⟩ : UserRow).username = false :=
  listUsers_excludes_reserved_and_sorts.1
    [⟨"pg_daemon", true, true, true⟩, ⟨"alice", false, false, true⟩]
    ⟨"alice", false, false, true⟩ (by decide)

theorem countP_set_add (p : Char → Bool) :
    ∀ (l : List Char) (k : Nat) (x a : Char), l[k]? = some a →
      (l.set k x).countP p + (if p a then 1 else 0) =
        l.countP p + (if p x then 1 else 0) := by
  intro l
  induction l with
  | nil => intro k x a h; simp at h
  | cons b t ih =>
    intro k x a h
    cases k with
    | zero =>
      simp at h
      subst h
      simp [List.countP_cons]
      omega
    | succ k =>
      simp at h
      have := ih k x a h
      simp [List.countP_cons]
      omega

theorem listSwap_countP (p : Char → Bool) (l : List Char) (i j : Nat) :
    (PasswordUtils.listSwap l i j).countP p = l.countP p := by
  rw [PasswordUtils.listSwap]
  rcases h1 : l[i]? with _ | a
  · simp
  rcases h2 : l[j]? with _ | b
  · simp
  have hbj : (l.set i b)[j]? = some b := by
    by_cases hij : i = j
    · subst hij
      rw [List.getElem?_set_self']
      rw [h1]
      rfl
    · rw [List.getElem?_set_ne hij]
      exact h2
  have e1 := countP_set_add p (l.set i b) j a b hbj
  have e2 := countP_set_add p l i b a h1
  simp only []
  omega

theorem listSwap_length (l : List Char) (i j : Nat) :
    (PasswordUtils.listSwap l i j).length = l.length := by
  rw [PasswordUtils.listSwap]
  rcases l[i]? with _ | a
  · rfl
  rcases l[j]? with _ | b <;> simp

theorem fyLoop_countP (rnd : Nat → Nat) (p : Char → Bool) :
    ∀ (i k : Nat) (l : List Char),
      (PasswordUtils.fyLoop rnd k i l).countP p = l.countP p := by
  intro i
  induction i with
  | zero => intro k l; rfl
  | succ i ih =>
    intro k l
    rw [PasswordUtils.fyLoop, ih, listSwap_countP]

theorem fyLoop_length (rnd : Nat → Nat) :
    ∀ (i k : Nat) (l : List Char),
      (PasswordUtils.fyLoop rnd k i l).length = l.length := by
  intro i
  induction i with
  | zero => intro k l; rfl
  | succ i ih =>
    intro k l
    rw [PasswordUtils.fyLoop, ih, listSwap_length]

theorem pick_mem (l : List Char) (r : Nat) (h : l ≠ []) : PasswordUtils.pick l r ∈ l := by
  rw [PasswordUtils.pick]
  have hlen : 0 < l.length := List.length_pos.mpr h
  have hlt : r % l.length < l.length := Nat.mod_lt _ hlen
  rw [List.getD_eq_getElem?_getD]
  rw [List.getElem?_eq_getElem hlt]
  simp [List.getElem_mem]

/-- C7: for every requested length `len >= 3` and every random stream, calling
`generateSecurePassword` with uppercase, numbers and special characters enabled
returns exactly `len` characters, including at least one uppercase letter, at least
one digit and at least one special character (the mandatory picks land in the
password and the Fisher-Yates shuffle preserves the character multiset). -/
theorem generateSecurePassword_spec (len : Nat) (rnd : Nat → Nat) (h : 3 ≤ len) :
    (PasswordUtils.generateSecurePassword len true true true rnd).length = len ∧
    (∃ c ∈ PasswordUtils.generateSecurePassword len true true true rnd,
      c ∈ PasswordUtils.uppercaseChars) ∧
    (∃ c ∈ PasswordUtils.generateSecurePassword len true true true rnd,
      c ∈ PasswordUtils.numberChars) ∧
    (∃ c ∈ PasswordUtils.generateSecurePassword len true true true rnd,
      c ∈ PasswordUtils.specialChars) := by
  have hpw : PasswordUtils.generateSecurePassword len true true true rnd =
      PasswordUtils.fisherYates (fun i => rnd (3 + (len - 3) + i))
        ([PasswordUtils.pick PasswordUtils.uppercaseChars (rnd 0),
          PasswordUtils.pick PasswordUtils.numberChars (rnd 1),
          PasswordUtils.pick PasswordUtils.specialChars (rnd 2)] ++
          (List.range (len - 3)).map (fun i =>
            PasswordUtils.pick
              (PasswordUtils.lowercaseChars ++ PasswordUtils.uppercaseChars ++
                PasswordUtils.numberChars ++ PasswordUtils.specialChars)
              (rnd (3 + i)))) := rfl
  have hcnt : ∀ p : Char → Bool,
      (PasswordUtils.generateSecurePassword len true true true rnd).countP p =
        ([PasswordUtils.pick PasswordUtils.uppercaseChars (rnd 0),
          PasswordUtils.pick PasswordUtils.numberChars (rnd 1),
          PasswordUtils.pick PasswordUtils.specialChars (rnd 2)] ++
          (List.range (len - 3)).map (fun i =>
            PasswordUtils.pick
              (PasswordUtils.lowercaseChars ++ PasswordUtils.uppercaseChars ++
                PasswordUtils.numberChars ++ PasswordUtils.specialChars)
              (rnd (3 + i)))).countP p := by
    intro p
    rw [hpw, PasswordUtils.fisherYates, fyLoop_countP]
  refine ⟨?_, ?_, ?_, ?_⟩
  · rw [hpw, PasswordUtils.fisherYates, fyLoop_length]
    simp
    omega
  · have hm : 0 < (PasswordUtils.generateSecurePassword len true true true rnd).countP
        (fun c => decide (c ∈ PasswordUtils.uppercaseChars)) := by
      rw [hcnt]
      have hu : PasswordUtils.pick PasswordUtils.uppercaseChars (rnd 0) ∈
          PasswordUtils.uppercaseChars := pick_mem _ _ (by decide)
      simp [List.countP_cons, List.countP_append, hu]
    rcases List.countP_pos_iff.mp hm with ⟨c, hc, hcp⟩
    exact ⟨c, hc, by simpa using hcp⟩
  · have hm : 0 < (PasswordUtils.generateSecurePassword len true true true rnd).countP
        (fun c => decide (c ∈ PasswordUtils.numberChars)) := by
      rw [hcnt]
      have hu : PasswordUtils.pick PasswordUtils.numberChars (rnd 1) ∈
          PasswordUtils.numberChars := pick_mem _ _ (by decide)
      simp [List.countP_cons, List.countP_append, hu]
    rcases List.countP_pos_iff.mp hm with ⟨c, hc, hcp⟩
    exact ⟨c, hc, by simpa using hcp⟩
  · have hm : 0 < (PasswordUtils.generateSecurePassword len true true true rnd).countP
        (fun c => decide (c ∈ PasswordUtils.specialChars)) := by
      rw [hcnt]
      have hu : PasswordUtils.pick PasswordUtils.specialChars (rnd 2) ∈
          PasswordUtils.specialChars := pick_mem _ _ (by decide)
      simp [List.countP_cons, List.countP_append, hu]
    rcases List.countP_pos_iff.mp hm with ⟨c, hc, hcp⟩
    exact ⟨c, hc, by simpa using hcp⟩

theorem generateSecurePassword_spec_witness :
    (PasswordUtils.generateSecurePassword 16 true true true (fun _ => 0)).length = 16 ∧
    (∃ c ∈ PasswordUtils.generateSecurePassword 16 true true true (fun _ => 0),
      c ∈ PasswordUtils.uppercaseChars) ∧
    (∃ c ∈ PasswordUtils.generateSecurePassword 16 true true true (fun _ => 0),
      c ∈ PasswordUtils.numberChars) ∧
    (∃ c ∈ PasswordUtils.generateSecurePassword 16 true true true (fun _ => 0),
      c ∈ PasswordUtils.specialChars) :=
  generateSecurePassword_spec 16 (fun _ => 0) (by decide)

theorem find?_map_of_fst_eq {β : Type} (f : String × β → String × β)
    (hf : ∀ kv, (f kv).1 = kv.1) (k : String) :
    ∀ l : List (String × β),
      (l.map f).find? (fun kv => kv.1 == k) = (l.find? (fun kv => kv.1 == k)).map f := by
  intro l
  induction l with
  | nil => rfl
  | cons kv t ih =>
    simp only [List.map_cons, List.find?_cons]
    rw [hf kv]
    by_cases hk : (kv.1 == k) = true
    · simp [hk]
    · simp only [Bool.not_eq_true] at hk
      simp [hk, ih]

theorem alook_assocUpsert {β : Type} (k kp : String) (F : Option β → β)
    (acc : List (String × β)) :
    alook k (assocUpsert kp F acc) =
      if k = kp then some (F (alook kp acc)) else alook k acc := by
  rw [assocUpsert]
  rcases hf : acc.find? (fun kv => kv.1 == kp) with _ | kv0 <;> rw [hf]
  · show alook k (acc ++ [(kp, F none)]) = _
    rw [alook, List.find?_append]
    by_cases hk : k = kp
    · subst hk
      rw [hf]
      simp [alook, hf]
    · rw [if_neg hk, alook]
      have hne : kp ≠ k := fun h => hk h.symm
      rcases hacc : acc.find? (fun kv => kv.1 == k) with _ | kv1 <;> simp [hacc, hne]
  · have hpres : ∀ kv : String × β,
        ((fun kv => if kv.1 == kp then (kv.1, F (some kv.2)) else kv) kv).1 = kv.1 := by
      intro kv
      by_cases h : (kv.1 == kp) = true <;> simp [h]
    show alook k (acc.map fun kv => if kv.1 == kp then (kv.1, F (some kv.2)) else kv) = _
    rw [alook, find?_map_of_fst_eq _ hpres k]
    by_cases hk : k = kp
    · subst hk
      rw [hf]
      have hkv0 : (kv0.1 == k) = true := by simpa using List.find?_some hf
      simp [alook, hf, hkv0, show kv0.1 = k from by simpa using hkv0]
    · rw [if_neg hk, alook]
      rcases hacc : acc.find? (fun kv => kv.1 == k) with _ | kv1
      · simp [hacc]
      · have hkv1e : kv1.1 = k := by simpa using List.find?_some hacc
        have hne : (kv1.1 == kp) = false := by
          rw [hkv1e, beq_eq_false_iff_ne]
          exact hk
        simp [hacc, hne, hkv1e, hk]

theorem alook_foldl_append_upsert {α : Type} (key : α → String) (v : α → String) :
    ∀ (l : List α) (acc : List (String × List String)) (k : String),
      alook k (l.foldl (fun a p => assocUpsert (key p) (fun o => o.getD [] ++ [v p]) a) acc) =
        match alook k acc with
        | some xs => some (xs ++ (l.filter (fun p => key p == k)).map v)
        | none =>
            if l.any (fun p => key p == k) then
              some ((l.filter (fun p => key p == k)).map v)
            else none := by
  intro l
  induction l with
  | nil =>
    intro acc k
    rcases h : alook k acc with _ | xs <;> simp [h]
  | cons p t ih =>
    intro acc k
    rw [List.foldl_cons, ih, alook_assocUpsert]
    by_cases hk : k = key p
    · subst hk
      have hpk : (key p == key p) = true := beq_self_eq_true _
      rcases halook : alook (key p) acc with _ | xs <;>
        simp [halook, List.filter_cons, List.any_cons, hpk]
    · have hkf : (key p == k) = false := by
        rw [beq_eq_false_iff_ne]
        exact fun h => hk h.symm
      rcases halook : alook k acc with _ | xs <;>
        simp [halook, List.filter_cons, List.any_cons, hkf, hk]

theorem alook_foldl_col :
    ∀ (l : List ColumnPriv) (acc : List (String × List (String × List String)))
      (tk : String),
      alook tk (l.foldl (fun a p => assocUpsert (DisplayUtils.colTableKey p)
          (fun o => assocUpsert p.column_name
            (fun o2 => o2.getD [] ++ [p.privilege_type]) (o.getD [])) a) acc) =
        match alook tk acc with
        | some inner => some ((l.filter (fun p => DisplayUtils.colTableKey p == tk)).foldl
            (fun a2 p => assocUpsert p.column_name
              (fun o2 => o2.getD [] ++ [p.privilege_type]) a2) inner)
        | none =>
            if l.any (fun p => DisplayUtils.colTableKey p == tk) then
              some ((l.filter (fun p => DisplayUtils.colTableKey p == tk)).foldl
                (fun a2 p => assocUpsert p.column_name
                  (fun o2 => o2.getD [] ++ [p.privilege_type]) a2) [])
            else none := by
  intro l
  induction l with
  | nil =>
    intro acc tk
    rcases h : alook tk acc with _ | inner <;> simp [h]
  | cons p t ih =>
    intro acc tk
    rw [List.foldl_cons, ih, alook_assocUpsert]
    by_cases hk : tk = DisplayUtils.colTableKey p
    · subst hk
      have hpk : (DisplayUtils.colTableKey p == DisplayUtils.colTableKey p) = true :=
        beq_self_eq_true _
      rcases halook : alook (DisplayUtils.colTableKey p) acc with _ | inner <;>
        simp [halook, List.filter_cons, List.any_cons, hpk]
    · have hkf : (DisplayUtils.colTableKey p == tk) = false := by
        rw [beq_eq_false_iff_ne]
        exact fun h => hk h.symm
      rcases halook : alook tk acc with _ | inner <;>
        simp [halook, List.filter_cons, List.any_cons, hkf, hk]

theorem alook_groupTablePerms (tps : List TablePriv) (k : String) :
    alook k (DisplayUtils.groupTablePerms tps) =
      if tps.any (fun p => DisplayUtils.tableKey p == k) then
        some ((tps.filter (fun p => DisplayUtils.tableKey p == k)).map
          (fun p => p.privilege_type))
      else none := by
  have h := alook_foldl_append_upsert DisplayUtils.tableKey
    (fun p : TablePriv => p.privilege_type) tps [] k
  rw [show alook (β := List String) k [] = none from rfl] at h
  simp only [] at h
  rw [DisplayUtils.groupTablePerms]
  exact h

theorem alook_groupColumnPerms (cps : List ColumnPriv) (tk ck : String) :
    (alook tk (DisplayUtils.groupColumnPerms cps)).bind (alook ck) =
      if cps.any (fun p => DisplayUtils.colTableKey p == tk && p.column_name == ck) then
        some ((cps.filter (fun p =>
          DisplayUtils.colTableKey p == tk && p.column_name == ck)).map
          (fun p => p.privilege_type))
      else none := by
  rw [DisplayUtils.groupColumnPerms, alook_foldl_col cps [] tk]
  have hnil : alook (β := List (String × List String)) tk [] = none := rfl
  rw [hnil]
  by_cases htk : cps.any (fun p => DisplayUtils.colTableKey p == tk) = true
  · rw [if_pos htk]
    have hinner := alook_foldl_append_upsert (fun p : ColumnPriv => p.column_name)
      (fun p => p.privilege_type)
      (cps.filter (fun p => DisplayUtils.colTableKey p == tk)) [] ck
    simp only [Option.some_bind]
    rw [show alook (β := List String) ck [] = none from rfl] at hinner
    simp only [] at hinner
    rw [hinner, List.any_filter]
    by_cases hck : cps.any
        (fun p => DisplayUtils.colTableKey p == tk && p.column_name == ck) = true
    · rw [if_pos hck, if_pos hck]
      congr 1
      rw [List.filter_filter]
      exact congrArg _ (List.filter_congr (fun a _ => Bool.and_comm _ _))
    · rw [if_neg hck, if_neg hck]
  · rw [if_neg htk]
    have hb : cps.any
        (fun p => DisplayUtils.colTableKey p == tk && p.column_name == ck) = false := by
      rw [Bool.eq_false_iff]
      intro hcontra
      apply htk
      rcases List.any_eq_true.mp hcontra with ⟨p, hp, hpp⟩
      simp only [Bool.and_eq_true] at hpp
      exact List.any_eq_true.mpr ⟨p, hp, hpp.1⟩
    simp [hb]

/-- C6 counterexample: the grouping step of `displayTablePermissions` does not
deduplicate privilege kinds per object — two identical SELECT grants on
`public.users` (as can arise from distinct grantors in
`information_schema.table_privileges`) produce the grouped privilege list
`["SELECT", "SELECT"]`, not the deduplicated `["SELECT"]`. -/
theorem groupTablePerms_no_dedup :
    DisplayUtils.groupTablePerms
        [⟨"db", "public", "users", "SELECT"⟩, ⟨"db", "public", "users", "SELECT"⟩] =
      [("public.users", ["SELECT", "SELECT"])] ∧
    ¬ (∀ kv ∈ DisplayUtils.groupTablePerms
        [⟨"db", "public", "users", "SELECT"⟩, ⟨"db", "public", "users", "SELECT"⟩],
        kv.2.Nodup) := by
  constructor
  · rfl
  · decide

/-- C6 amended: the report-shaping step computes `hasRead` as "some table grant has
privilege SELECT", `hasWrite` as "some table grant has INSERT, UPDATE or DELETE",
`hasAdmin` as "superuser OR create-db OR create-role on the role attributes", the
counts as the number of distinct `schema.table` keys among table grants and distinct
`schema.table.column` keys among column grants, and groups table and column grants by
`schema.table` key (and column name), collecting each object's privilege kinds in row
order without deduplication (duplicate grants are preserved). -/
theorem report_shaping_spec (tps : List TablePriv) (cps : List ColumnPriv)
    (rd : Option RoleDetails) :
    (DisplayUtils.hasReadPermissions tps = true ↔
      ∃ p ∈ tps, p.privilege_type = "SELECT") ∧
    (DisplayUtils.hasWritePermissions tps = true ↔
      ∃ p ∈ tps, p.privilege_type = "INSERT" ∨ p.privilege_type = "UPDATE" ∨
        p.privilege_type = "DELETE") ∧
    (DisplayUtils.hasAdminPermissions rd = true ↔
      ∃ r, rd = some r ∧
        (r.rolsuper = true ∨ r.rolcreatedb = true ∨ r.rolcreaterole = true)) ∧
    DisplayUtils.totalTables tps = (tps.map DisplayUtils.tableKey).toFinset.card ∧
    DisplayUtils.totalColumns cps = (cps.map DisplayUtils.columnKey).toFinset.card ∧
    (∀ k, alook k (DisplayUtils.groupTablePerms tps) =
      if tps.any (fun p => DisplayUtils.tableKey p == k) then
        some ((tps.filter (fun p => DisplayUtils.tableKey p == k)).map
          (fun p => p.privilege_type))
      else none) ∧
    (∀ tk ck, (alook tk (DisplayUtils.groupColumnPerms cps)).bind (alook ck) =
      if cps.any (fun p => DisplayUtils.colTableKey p == tk && p.column_name == ck) then
        some ((cps.filter (fun p =>
          DisplayUtils.colTableKey p == tk && p.column_name == ck)).map
          (fun p => p.privilege_type))
      else none) := by
  refine ⟨?_, ?_, ?_, ?_, ?_, fun k => alook_groupTablePerms tps k,
    fun tk ck => alook_groupColumnPerms cps tk ck⟩
  · simp [DisplayUtils.hasReadPermissions, List.any_eq_true]
  · simp [DisplayUtils.hasWritePermissions, List.any_eq_true]
  · rcases rd with _ | r <;> simp [DisplayUtils.hasAdminPermissions, or_assoc]
  · rw [DisplayUtils.totalTables, List.card_toFinset]
  · rw [DisplayUtils.totalColumns, List.card_toFinset]
